import Mathlib

/-!
Shallow embedding of the `esphome` Go client (package `esphome`, files
`client.go` (src/unnamed/part_000), `entity.go`, `camera.go`, `error.go`).

Modelling conventions:
* Go `float32` values are modelled as rationals (`ℚ`); the epsilon
  comparison `equal` of entity.go is translated verbatim over `ℚ`.
* Go maps are modelled as association lists with insert-or-replace
  (`assocSet`), which preserves key uniqueness.
* Go channels used as waiter slots are modelled by channel identifiers
  plus an explicit per-channel state (`ChanSt`): a FIFO buffer of
  `Option Msg` values (`none` models a Go `nil` message, the displacement
  signal) and a closed flag.
* Callback invocations (`HandleState` etc.) are modelled by returning the
  list of invocations an update performs, since the Go code mutates the
  entity and calls optional function pointers.
* Blocking behaviour is made explicit: a wait operation additionally
  receives the list of values that will be delivered to its channel while
  it waits (empty list = nothing is ever delivered, the call blocks, or
  for the timeout variants, times out).
-/

namespace ESPHome

/-- Error values: the four sentinel errors of error.go, plus decode
(`protocol`) and I/O (`io`) failures as produced by `api.ReadMessage`
(the frame codec classifies failures into these two families). -/
inductive Err where
  | password
  | timeout
  | objectID
  | entity
  | protocol (detail : Nat)
  | io (detail : Nat)
deriving Repr, DecidableEq

/-- The `Name`/`ObjectId`/`UniqueId`/`Key` quadruple carried by every
`api.ListEntities*Response` message (fields used by the `new*` entity
constructors in entity.go). -/
structure EntityDesc where
  key : Nat
  objectId : String
  uniqueId : String
  name : String
deriving Repr, DecidableEq

/-- `api.ListEntitiesLightResponse` fields used by `newLight`. -/
structure LightDesc where
  entity : EntityDesc
  supportsBrightness : Bool
  supportsRgb : Bool
  supportsWhiteValue : Bool
  supportsColorTemperature : Bool
  minMireds : ℚ
  maxMireds : ℚ
  effects : List String
deriving Repr, DecidableEq

/-- `api.ListEntitiesClimateResponse` fields used by `newClimate`. -/
structure ClimateDesc where
  entity : EntityDesc
  supportsCurrentTemperature : Bool
  supportsTwoPointTargetTemperature : Bool
  supportedModes : List Int
  visualMinTemperature : ℚ
  visualMaxTemperature : ℚ
  visualTemperatureStep : ℚ
  supportsAway : Bool
  supportsAction : Bool
  supportedFanModes : List Int
  supportedSwingModes : List Int
deriving Repr, DecidableEq

/-- `api.SensorStateResponse`. -/
structure SensorStateMsg where
  key : Nat
  state : ℚ
  missingState : Bool
deriving Repr, DecidableEq

/-- `api.LightStateResponse`. -/
structure LightStateMsg where
  key : Nat
  state : Bool
  brightness : ℚ
  red : ℚ
  green : ℚ
  blue : ℚ
  white : ℚ
  colorTemperature : ℚ
  effect : String
deriving Repr, DecidableEq

/-- `api.SwitchStateResponse`. -/
structure SwitchStateMsg where
  key : Nat
  state : Bool
deriving Repr, DecidableEq

/-- `api.LightCommandRequest` (all fields of the message built by
`Light.commandRequest` in entity.go). -/
structure LightCommandMsg where
  key : Nat
  state : Bool
  hasBrightness : Bool
  brightness : ℚ
  hasRgb : Bool
  red : ℚ
  green : ℚ
  blue : ℚ
  hasWhite : Bool
  white : ℚ
  hasColorTemperature : Bool
  colorTemperature : ℚ
  hasTransitionLength : Bool
  transitionLength : Nat
  hasFlashLength : Bool
  flashLength : Nat
  hasEffect : Bool
  effect : String
deriving Repr, DecidableEq

/-- `api.SwitchCommandRequest`. -/
structure SwitchCommandMsg where
  key : Nat
  state : Bool
deriving Repr, DecidableEq

/-- The protocol messages (`proto.Message` values) the client code
manipulates. -/
inductive Msg where
  | helloRequest (clientInfo : String)
  | helloResponse
  | connectRequest (password : String)
  | connectResponse (invalidPassword : Bool)
  | disconnectRequest
  | disconnectResponse
  | pingRequest
  | pingResponse
  | getTimeRequest
  | getTimeResponse (epochSeconds : Nat)
  | listEntitiesRequest
  | listEntitiesBinarySensorResponse (e : EntityDesc) (deviceClass : String)
  | listEntitiesCoverResponse (e : EntityDesc)
  | listEntitiesFanResponse (e : EntityDesc)
  | listEntitiesLightResponse (d : LightDesc)
  | listEntitiesSensorResponse (e : EntityDesc)
  | listEntitiesSwitchResponse (e : EntityDesc)
  | listEntitiesTextSensorResponse (e : EntityDesc)
  | listEntitiesDoneResponse
  | subscribeStatesRequest
  | coverStateResponse (key : Nat)
  | fanStateResponse (key : Nat)
  | lightStateResponse (m : LightStateMsg)
  | sensorStateResponse (m : SensorStateMsg)
  | switchStateResponse (m : SwitchStateMsg)
  | subscribeLogsRequest (level : Int)
  | subscribeLogsResponse (level : Int) (tag : String) (message : String) (sendFailed : Bool)
  | lightCommandRequest (m : LightCommandMsg)
  | switchCommandRequest (m : SwitchCommandMsg)
  | listEntitiesServicesResponse (key : Nat)
  | listEntitiesCameraResponse (e : EntityDesc)
  | cameraImageRequest (stream : Bool)
  | cameraImageResponse (key : Nat) (data : List Nat) (done : Bool)
  | listEntitiesClimateResponse (d : ClimateDesc)
  | climateStateResponse (key : Nat)
deriving Repr, DecidableEq

/-- Modelled from the spec: the api package (frame codec, `api.TypeOf`
and the `api.*Type` constants) is not under src/; the numeric
message-kind assignment below follows the spec's message kind table
(Hello=1/2, Connect=3/4, Disconnect=5/6, Ping=7/8, ListEntities=11,
entity-description responses 12–18,41,43,46, ListEntitiesDone=19,
SubscribeStates=20, state updates 21–27,47, SubscribeLogs=28/29,
commands 30–33,48, camera capture request/response=44/45). -/
def typeOf : Msg → Nat
  | .helloRequest _ => 1
  | .helloResponse => 2
  | .connectRequest _ => 3
  | .connectResponse _ => 4
  | .disconnectRequest => 5
  | .disconnectResponse => 6
  | .pingRequest => 7
  | .pingResponse => 8
  | .listEntitiesRequest => 11
  | .listEntitiesBinarySensorResponse _ _ => 12
  | .listEntitiesCoverResponse _ => 13
  | .listEntitiesFanResponse _ => 14
  | .listEntitiesLightResponse _ => 15
  | .listEntitiesSensorResponse _ => 16
  | .listEntitiesSwitchResponse _ => 17
  | .listEntitiesTextSensorResponse _ => 18
  | .listEntitiesDoneResponse => 19
  | .subscribeStatesRequest => 20
  | .coverStateResponse _ => 22
  | .fanStateResponse _ => 23
  | .lightStateResponse _ => 24
  | .sensorStateResponse _ => 25
  | .switchStateResponse _ => 26
  | .subscribeLogsRequest _ => 28
  | .subscribeLogsResponse _ _ _ _ => 29
  | .lightCommandRequest _ => 32
  | .switchCommandRequest _ => 33
  | .getTimeRequest => 36
  | .getTimeResponse _ => 37
  | .listEntitiesServicesResponse _ => 41
  | .listEntitiesCameraResponse _ => 43
  | .cameraImageRequest _ => 44
  | .cameraImageResponse _ _ _ => 45
  | .listEntitiesClimateResponse _ => 46
  | .climateStateResponse _ => 47

/-- `api.HelloResponseType`. -/
def helloResponseType : Nat := 2
/-- `api.ConnectResponseType`. -/
def connectResponseType : Nat := 4
/-- `api.DisconnectResponseType`. -/
def disconnectResponseType : Nat := 6
/-- `api.SubscribeLogsResponseType`. -/
def subscribeLogsResponseType : Nat := 29
/-- `api.CameraImageResponseType`. -/
def cameraImageResponseType : Nat := 45

/-! ## Association-list helpers (model of Go maps) -/

/-- Insert-or-replace on an association list (Go map assignment
`m[k] = v`). -/
def assocSet {α β : Type} [DecidableEq α] : List (α × β) → α → β → List (α × β)
  | [], k, v => [(k, v)]
  | (k', v') :: rest, k, v =>
      if k' = k then (k, v) :: rest else (k', v') :: assocSet rest k v

/-- Lookup on an association list (Go map read `m[k]`). -/
def assocGet {α β : Type} [DecidableEq α] : List (α × β) → α → Option β
  | [], _ => none
  | (k', v') :: rest, k => if k' = k then some v' else assocGet rest k

/-- Deletion from an association list (Go `delete(m, k)`). -/
def assocErase {α β : Type} [DecidableEq α] : List (α × β) → α → List (α × β)
  | [], _ => []
  | (k', v') :: rest, k =>
      if k' = k then assocErase rest k else (k', v') :: assocErase rest k

/-! ## Entities (entity.go) -/

/-- `equal` of entity.go: epsilon comparison with tolerance `1e-6`. -/
def equal (a b : ℚ) : Bool := decide (|a - b| ≤ 1 / 1000000)

/-- `BinarySensor` of entity.go (entity fields inlined). -/
structure BinarySensor where
  name : String
  objectID : String
  uniqueID : String
  key : Nat
  deviceClass : String
  state : Bool
deriving Repr, DecidableEq

/-- `newBinarySensor` of entity.go. -/
def newBinarySensor (e : EntityDesc) (deviceClass : String) : BinarySensor :=
  { name := e.name, objectID := e.objectId, uniqueID := e.uniqueId, key := e.key
    deviceClass := deviceClass, state := false }

/-- `ClimateCapabilities` of entity.go. -/
structure ClimateCapabilities where
  currentTemperature : Bool
  twoPointTargetTemperature : Bool
  modes : List Int
  visualMinTemperature : ℚ
  visualMaxTemperature : ℚ
  visualTemperatureStep : ℚ
  away : Bool
  action : Bool
  fanModes : List Int
  swingModes : List Int
deriving Repr, DecidableEq

/-- `Climate` of entity.go. -/
structure Climate where
  name : String
  objectID : String
  uniqueID : String
  key : Nat
  capabilities : ClimateCapabilities
deriving Repr, DecidableEq

/-- `newClimate` of entity.go. -/
def newClimate (d : ClimateDesc) : Climate :=
  { name := d.entity.name, objectID := d.entity.objectId
    uniqueID := d.entity.uniqueId, key := d.entity.key
    capabilities :=
      { currentTemperature := d.supportsCurrentTemperature
        twoPointTargetTemperature := d.supportsTwoPointTargetTemperature
        modes := d.supportedModes
        visualMinTemperature := d.visualMinTemperature
        visualMaxTemperature := d.visualMaxTemperature
        visualTemperatureStep := d.visualTemperatureStep
        away := d.supportsAway
        action := d.supportsAction
        fanModes := d.supportedFanModes
        swingModes := d.supportedSwingModes } }

/-- `Cover` of entity.go (entity fields only; the rest is a TODO in the
source). -/
structure Cover where
  name : String
  objectID : String
  uniqueID : String
  key : Nat
deriving Repr, DecidableEq

/-- `newCover` of entity.go. -/
def newCover (e : EntityDesc) : Cover :=
  { name := e.name, objectID := e.objectId, uniqueID := e.uniqueId, key := e.key }

/-- `Fan` of entity.go (entity fields only; the rest is a TODO in the
source). -/
structure Fan where
  name : String
  objectID : String
  uniqueID : String
  key : Nat
deriving Repr, DecidableEq

/-- `newFan` of entity.go. -/
def newFan (e : EntityDesc) : Fan :=
  { name := e.name, objectID := e.objectId, uniqueID := e.uniqueId, key := e.key }

/-- `Camera` of camera.go (`lastFrame` timestamp modelled as a `Nat`). -/
structure Camera where
  name : String
  objectID : String
  uniqueID : String
  key : Nat
  lastFrame : Nat
deriving Repr, DecidableEq

/-- `newCamera` of camera.go. -/
def newCamera (e : EntityDesc) : Camera :=
  { name := e.name, objectID := e.objectId, uniqueID := e.uniqueId, key := e.key
    lastFrame := 0 }

/-- `LightCapabilities` of entity.go. -/
structure LightCapabilities where
  brightness : Bool
  rgb : Bool
  whiteValue : Bool
  colorTemperature : Bool
  minMired : ℚ
  maxMired : ℚ
deriving Repr, DecidableEq

/-- `LightState` of entity.go. -/
structure LightState where
  isOn : Bool
  brightness : ℚ
  red : ℚ
  green : ℚ
  blue : ℚ
  white : ℚ
  colorTemperature : ℚ
  effect : String
deriving Repr, DecidableEq

/-- `Light` of entity.go. The optional callback fields
`HandleState`, `HandleBrightness`, `HandleColor`,
`HandleColorTemperature`, `HandleEffect` are modelled by Booleans
recording whether a callback is registered (non-nil); invocations are
returned by `Light.update` as an event list. -/
structure Light where
  name : String
  objectID : String
  uniqueID : String
  key : Nat
  capabilities : LightCapabilities
  effects : List String
  state : LightState
  stateIsValid : Bool
  hasHandleState : Bool
  hasHandleBrightness : Bool
  hasHandleColor : Bool
  hasHandleColorTemperature : Bool
  hasHandleEffect : Bool
deriving Repr, DecidableEq

/-- One callback invocation performed by `Light.update`, with the
arguments passed to the callback. -/
inductive LightEvent where
  | handleState (isOn : Bool)
  | handleBrightness (v : ℚ)
  | handleColor (r g b w : ℚ)
  | handleColorTemperature (v : ℚ)
  | handleEffect (s : String)
deriving Repr, DecidableEq

/-- `newLight` of entity.go (callbacks unregistered, zero-value state). -/
def newLight (d : LightDesc) : Light :=
  { name := d.entity.name, objectID := d.entity.objectId
    uniqueID := d.entity.uniqueId, key := d.entity.key
    capabilities :=
      { brightness := d.supportsBrightness
        rgb := d.supportsRgb
        whiteValue := d.supportsWhiteValue
        colorTemperature := d.supportsColorTemperature
        minMired := d.minMireds
        maxMired := d.maxMireds }
    effects := d.effects
    state := { isOn := false, brightness := 0, red := 0, green := 0, blue := 0
               white := 0, colorTemperature := 0, effect := "" }
    stateIsValid := false
    hasHandleState := false
    hasHandleBrightness := false
    hasHandleColor := false
    hasHandleColorTemperature := false
    hasHandleEffect := false }

/-- `Light.update` of entity.go, returning the updated entity and the
callback invocations in source order. Note the source passes the
constant `true` to `HandleState`, checks `StateIsValid` only for the
color, color-temperature and effect callbacks, and never invokes
`HandleBrightness`. -/
def Light.update (entity : Light) (state : LightStateMsg) : Light × List LightEvent :=
  let ev1 : List LightEvent :=
    if entity.hasHandleState && (state.state != entity.state.isOn) then
      [.handleState true]
    else []
  let ev2 : List LightEvent :=
    if entity.hasHandleColor &&
        (!entity.stateIsValid ||
          (!equal entity.state.red state.red ||
           !equal entity.state.green state.green ||
           !equal entity.state.blue state.blue ||
           !equal entity.state.white state.white)) then
      [.handleColor state.red state.green state.blue state.white]
    else []
  let ev3 : List LightEvent :=
    if entity.hasHandleColorTemperature &&
        (!entity.stateIsValid ||
          !equal entity.state.colorTemperature state.colorTemperature) then
      [.handleColorTemperature state.colorTemperature]
    else []
  let ev4 : List LightEvent :=
    if entity.hasHandleEffect &&
        (!entity.stateIsValid || entity.state.effect != state.effect) then
      [.handleEffect state.effect]
    else []
  ({ entity with
      state :=
        { isOn := state.state
          brightness := state.brightness
          red := state.red
          green := state.green
          blue := state.blue
          white := state.white
          colorTemperature := state.colorTemperature
          effect := state.effect }
      stateIsValid := true },
   ev1 ++ ev2 ++ ev3 ++ ev4)

/-- `Light.commandRequest` of entity.go. -/
def Light.commandRequest (entity : Light) : LightCommandMsg :=
  { key := entity.key
    state := entity.state.isOn
    hasBrightness := entity.capabilities.brightness
    brightness := entity.state.brightness
    hasRgb := entity.capabilities.rgb
    red := entity.state.red
    green := entity.state.green
    blue := entity.state.blue
    hasWhite := entity.capabilities.whiteValue
    white := entity.state.white
    hasColorTemperature := entity.capabilities.colorTemperature
    colorTemperature := entity.state.colorTemperature
    hasTransitionLength := false
    transitionLength := 0
    hasFlashLength := false
    flashLength := 0
    hasEffect := false
    effect := entity.state.effect }

/-- The message built by `Light.SetBrightness` of entity.go. -/
def Light.setBrightnessMsg (entity : Light) (value : ℚ) : LightCommandMsg :=
  { entity.commandRequest with brightness := value }

/-- The message built by `Light.SetWhite` of entity.go. -/
def Light.setWhiteMsg (entity : Light) (value : ℚ) : LightCommandMsg :=
  { entity.commandRequest with white := value }

/-- The message built by `Light.SetEffect` of entity.go. -/
def Light.setEffectMsg (entity : Light) (effect : String) : LightCommandMsg :=
  { entity.commandRequest with effect := effect }

/-- The message built by `Light.SetState` of entity.go. -/
def Light.setStateMsg (entity : Light) (isOn : Bool) : LightCommandMsg :=
  { entity.commandRequest with state := isOn }

/-- `Sensor` of entity.go (callback modelled as in `Light`). -/
structure Sensor where
  name : String
  objectID : String
  uniqueID : String
  key : Nat
  icon : String
  unitOfMeasurement : String
  accuracyDecimals : Int
  forceUpdate : Bool
  state : ℚ
  stateIsValid : Bool
  hasHandleState : Bool
deriving Repr, DecidableEq

/-- `newSensor` of entity.go (only the entity quadruple is copied from
the description; icon and friends stay at their zero values). -/
def newSensor (e : EntityDesc) : Sensor :=
  { name := e.name, objectID := e.objectId, uniqueID := e.uniqueId, key := e.key
    icon := "", unitOfMeasurement := "", accuracyDecimals := 0
    forceUpdate := false, state := 0, stateIsValid := false
    hasHandleState := false }

/-- `Sensor.update` of entity.go, returning the updated entity and the
arguments of the `HandleState` invocations it performs. -/
def Sensor.update (entity : Sensor) (state : SensorStateMsg) : Sensor × List ℚ :=
  let evs : List ℚ :=
    if !state.missingState && entity.hasHandleState &&
        !equal entity.state state.state then
      [state.state]
    else []
  ({ entity with state := state.state, stateIsValid := !state.missingState }, evs)

/-- `Switch` of entity.go (callback modelled as in `Light`; note the
source `Switch` has no `StateIsValid` field). -/
structure Switch where
  name : String
  objectID : String
  uniqueID : String
  key : Nat
  icon : String
  assumedState : Bool
  state : Bool
  hasHandleState : Bool
deriving Repr, DecidableEq

/-- `newSwitch` of entity.go. -/
def newSwitch (e : EntityDesc) : Switch :=
  { name := e.name, objectID := e.objectId, uniqueID := e.uniqueId, key := e.key
    icon := "", assumedState := false, state := false, hasHandleState := false }

/-- `Switch.update` of entity.go: the callback is invoked on every update
(no comparison with the previous value), then the state is committed and
`AssumedState` cleared. -/
def Switch.update (entity : Switch) (state : SwitchStateMsg) : Switch × List Bool :=
  let evs : List Bool := if entity.hasHandleState then [state.state] else []
  ({ entity with state := state.state, assumedState := false }, evs)

/-- `Switch.commandRequest` of entity.go. -/
def Switch.commandRequest (entity : Switch) : SwitchCommandMsg :=
  { key := entity.key, state := entity.state }

/-- The message built by `Switch.SetState` of entity.go. -/
def Switch.setStateMsg (entity : Switch) (isOn : Bool) : SwitchCommandMsg :=
  { entity.commandRequest with state := isOn }

/-- `TextSensor` of entity.go. -/
structure TextSensor where
  name : String
  objectID : String
  uniqueID : String
  key : Nat
  state : String
  stateIsValid : Bool
deriving Repr, DecidableEq

/-- `newTextSensor` of entity.go. -/
def newTextSensor (e : EntityDesc) : TextSensor :=
  { name := e.name, objectID := e.objectId, uniqueID := e.uniqueId, key := e.key
    state := "", stateIsValid := false }

/-! ## Client state (client.go) -/

/-- State of one waiter channel (Go `chan proto.Message` of capacity 1):
the FIFO of values sent into it (`none` models a Go `nil` message,
the displacement signal of `Client.waitFor`) plus a closed flag. -/
structure ChanSt where
  buf : List (Option Msg)
  closed : Bool
deriving Repr, DecidableEq

/-- `clientEntities` of client.go: one map per entity kind, keyed by the
numeric entity key. -/
structure ClientEntities where
  binarySensor : List (Nat × BinarySensor)
  camera : List (Nat × Camera)
  climate : List (Nat × Climate)
  cover : List (Nat × Cover)
  fan : List (Nat × Fan)
  light : List (Nat × Light)
  sensor : List (Nat × Sensor)
  switches : List (Nat × Switch)
  textSensor : List (Nat × TextSensor)
deriving Repr, DecidableEq

/-- `newClientEntities` of client.go. -/
def newClientEntities : ClientEntities :=
  { binarySensor := [], camera := [], climate := [], cover := [], fan := []
    light := [], sensor := [], switches := [], textSensor := [] }

/-- One observable callback invocation performed by the push dispatcher
(`Client.handleInternal` calling `entity.update`). -/
inductive Event where
  | lightEvent (key : Nat) (e : LightEvent)
  | sensorEvent (key : Nat) (v : ℚ)
  | switchEvent (key : Nat) (v : Bool)
deriving Repr, DecidableEq

/-- `Client` of client.go. Observable effects are made explicit:
`sent` is the trace of messages written to the socket, `events` the
trace of entity callback invocations. `inQueue` is the content of the
buffered channel `c.in`; `wait` maps a message type to the identifier of
the registered waiter channel, whose state lives in `chans`;
`nextChan` allocates fresh channel identifiers. `clockEpoch` is the
injectable clock. -/
structure ClientState where
  info : String
  timeout : Nat
  clockEpoch : Nat
  err : Option Err
  inQueue : List Msg
  wait : List (Nat × Nat)
  chans : List (Nat × ChanSt)
  nextChan : Nat
  entities : ClientEntities
  lastMessage : Nat
  sent : List Msg
  events : List Event
  stopped : Bool
deriving Repr, DecidableEq

/-- The client built by `DialTimeout` of client.go, right after a
successful dial. -/
def newClient (info : String) (timeout clockEpoch : Nat) : ClientState :=
  { info := info, timeout := timeout, clockEpoch := clockEpoch
    err := none, inQueue := [], wait := [], chans := [], nextChan := 0
    entities := newClientEntities, lastMessage := 0, sent := []
    events := [], stopped := false }

/-- Sending a value into a waiter channel (`other <- nil`,
`in <- message`). -/
def chanSend (c : ClientState) (ch : Nat) (v : Option Msg) : ClientState :=
  match assocGet c.chans ch with
  | some st => { c with chans := assocSet c.chans ch { st with buf := st.buf ++ [v] } }
  | none => c

/-- Closing a waiter channel (`close(other)`). -/
def chanClose (c : ClientState) (ch : Nat) : ClientState :=
  match assocGet c.chans ch with
  | some st => { c with chans := assocSet c.chans ch { st with closed := true } }
  | none => c

/-- Allocating a fresh waiter channel (`make(chan proto.Message, 1)`);
returns the channel identifier and the new state. -/
def allocChan (c : ClientState) : Nat × ClientState :=
  (c.nextChan,
   { c with nextChan := c.nextChan + 1
            chans := assocSet c.chans c.nextChan { buf := [], closed := false } })

/-- `Client.sendTimeout` / `Client.send` of client.go: encode and write
the message (the write deadline has no observable effect in this model). -/
def ClientState.sendMsg (c : ClientState) (message : Msg) : ClientState :=
  { c with sent := c.sent ++ [message] }

/-- `Client.waitFor` of client.go: if a waiter for `messageType` is
already registered, unblock it with a `nil` send and close it, then
install the new channel in the slot. -/
def ClientState.waitFor (c : ClientState) (messageType : Nat) (ch : Nat) : ClientState :=
  let c' :=
    match assocGet c.wait messageType with
    | some other => chanClose (chanSend c other none) other
    | none => c
  { c' with wait := assocSet c'.wait messageType ch }

/-- `Client.waitDone` of client.go: delete the waiter slot. -/
def ClientState.waitDone (c : ClientState) (messageType : Nat) : ClientState :=
  { c with wait := assocErase c.wait messageType }

/-- Outcome of a wait operation, as observed by its caller. -/
inductive WaitOutcome where
  | msg (m : Msg)
  | cancelled
  | timedOut
  | blocked
  | errored (e : Err)
deriving Repr, DecidableEq

/-- `Client.nextMessage` of client.go: if the sticky error is set,
return it; otherwise receive from the buffered queue `c.in` (blocking
if it is empty and nothing is ever delivered). -/
def ClientState.nextMessage (c : ClientState) : WaitOutcome × ClientState :=
  match c.err with
  | some e => (.errored e, c)
  | none =>
      match c.inQueue with
      | m :: rest => (.msg m, { c with inQueue := rest })
      | [] => (.blocked, c)

/-- `Client.nextMessageTimeout` of client.go: like `nextMessage` but an
empty queue (no message arriving within the window) yields `ErrTimeout`. -/
def ClientState.nextMessageTimeout (c : ClientState) : WaitOutcome × ClientState :=
  match c.err with
  | some e => (.errored e, c)
  | none =>
      match c.inQueue with
      | m :: rest => (.msg m, { c with inQueue := rest })
      | [] => (.timedOut, c)

/-- `Client.waitMessage` of client.go: allocate a fresh channel, register
it via `waitFor`, block on the channel, then `waitDone`. `future` is the
sequence of values that will be sent to the freshly registered channel
while the caller blocks; with no delivery the call blocks forever (note
the source never consults the sticky error `c.err` here). -/
def ClientState.waitMessage (c : ClientState) (messageType : Nat)
    (future : List (Option Msg)) : WaitOutcome × ClientState :=
  let (ch, c1) := allocChan c
  let c2 := c1.waitFor messageType ch
  match future with
  | [] => (.blocked, c2)
  | some m :: _ => (.msg m, c2.waitDone messageType)
  | none :: _ => (.cancelled, c2.waitDone messageType)

/-- `Client.waitMessageTimeout` of client.go: like `waitMessage`, but an
empty `future` (nothing delivered within the window) yields `ErrTimeout`;
the deferred `waitDone` removes the waiter on every path. -/
def ClientState.waitMessageTimeout (c : ClientState) (messageType : Nat)
    (future : List (Option Msg)) : WaitOutcome × ClientState :=
  let (ch, c1) := allocChan c
  let c2 := c1.waitFor messageType ch
  match future with
  | [] => (.timedOut, c2.waitDone messageType)
  | some m :: _ => (.msg m, c2.waitDone messageType)
  | none :: _ => (.cancelled, c2.waitDone messageType)

/-- `Client.handleInternal` of client.go. Returns whether the message was
fully handled (short-circuiting correlation) together with the updated
state. The `DisconnectRequest` branch replies and then calls `Close`,
whose round trip is abstracted to its observable effects: the outgoing
disconnect messages and the stop signal. Note that the entity
push-state branches dispatch to the matching entity but fall through to
`return false`. -/
def ClientState.handleInternal (c : ClientState) (message : Msg) : Bool × ClientState :=
  match message with
  | .disconnectRequest =>
      let c := c.sendMsg .disconnectResponse
      (true, { c.sendMsg .disconnectRequest with stopped := true })
  | .pingRequest => (true, c.sendMsg .pingResponse)
  | .getTimeRequest => (true, c.sendMsg (.getTimeResponse c.clockEpoch))
  | .fanStateResponse _ => (false, c)
  | .coverStateResponse _ => (false, c)
  | .lightStateResponse m =>
      match assocGet c.entities.light m.key with
      | some entity =>
          let (entity', evs) := entity.update m
          (false,
           { c with entities := { c.entities with light := assocSet c.entities.light m.key entity' }
                    events := c.events ++ evs.map (Event.lightEvent m.key) })
      | none => (false, c)
  | .sensorStateResponse m =>
      match assocGet c.entities.sensor m.key with
      | some entity =>
          let (entity', evs) := entity.update m
          (false,
           { c with entities := { c.entities with sensor := assocSet c.entities.sensor m.key entity' }
                    events := c.events ++ evs.map (Event.sensorEvent m.key) })
      | none => (false, c)
  | .switchStateResponse m =>
      match assocGet c.entities.switches m.key with
      | some entity =>
          let (entity', evs) := entity.update m
          (false,
           { c with entities := { c.entities with switches := assocSet c.entities.switches m.key entity' }
                    events := c.events ++ evs.map (Event.switchEvent m.key) })
      | none => (false, c)
  | _ => (false, c)

/-- The success path of `Client.readMessage` of client.go for one decoded
message: stamp the last-message time, run the internal responder, and if
it did not fully handle the message, deliver it to the registered waiter
for its type, or else to the generic inbound queue. -/
def ClientState.readMessage (c : ClientState) (now : Nat) (message : Msg) : ClientState :=
  let c := { c with lastMessage := now }
  let hi := c.handleInternal message
  if hi.1 then hi.2
  else
    match assocGet hi.2.wait (typeOf message) with
    | some ch => chanSend hi.2 ch (some message)
    | none => { hi.2 with inQueue := hi.2.inQueue ++ [message] }

/-- `Client.reader` of client.go: run `readMessage` on each decode result
in order; a decode/I/O failure is stored as the sticky terminal error and
ends the loop (so nothing after it is processed or delivered). -/
def ClientState.reader (c : ClientState) (now : Nat) : List (Except Err Msg) → ClientState
  | [] => c
  | d :: rest =>
      if c.stopped then c
      else
        match d with
        | .error e => { c with err := some e }
        | .ok m => (c.readMessage now m).reader now rest

/-- Registration of the standing log waiter in `Client.Logs` of
client.go (lines 473–476): the channel is installed by direct map
assignment, without the displacement protocol of `waitFor`. -/
def ClientState.logsRegister (c : ClientState) (ch : Nat) : ClientState :=
  { c with wait := assocSet c.wait subscribeLogsResponseType ch }

/-- Registration of the camera-image waiter in `Camera.Image` and
`Camera.Stream` of camera.go: likewise a direct map assignment, without
the displacement protocol of `waitFor`. -/
def ClientState.cameraRegister (c : ClientState) (ch : Nat) : ClientState :=
  { c with wait := assocSet c.wait cameraImageResponseType ch }

/-- The entity push-state message kinds that `Client.handleInternal`
dispatches to the entity registry (cases `FanStateResponse` …
`SwitchStateResponse` of client.go). -/
def isPushState : Msg → Bool
  | .fanStateResponse _ => true
  | .coverStateResponse _ => true
  | .lightStateResponse _ => true
  | .sensorStateResponse _ => true
  | .switchStateResponse _ => true
  | _ => false

/-- The message kinds `Client.handleInternal` fully consumes (it returns
`true` exactly for the device-initiated disconnect, ping and time
requests; everything else, the push-state updates included, falls
through to correlation). -/
def internalKind : Msg → Bool
  | .disconnectRequest => true
  | .pingRequest => true
  | .getTimeRequest => true
  | _ => false

/-! ## The Login sequence (client.go), driven by a device script

A wait inside `Login` is the composition of `waitMessageTimeout` with
the receive loop: the reader processes the device's messages in wire
order; a message of the awaited type is delivered to the registered
waiter channel and returned; an internally handled message is consumed;
anything else is delivered per the waiter table or appended to the
generic inbound queue. `awaitScript` is exactly this composition, with
`script` the messages still to come from the device. -/

/-- One registered await of message type `t` racing the reader over the
device script. Returns the outcome, the client state, and the unread
remainder of the script. -/
def ClientState.awaitScript (c : ClientState) (now t : Nat) :
    List Msg → WaitOutcome × ClientState × List Msg
  | [] => (.timedOut, c, [])
  | m :: rest =>
      let c1 := { c with lastMessage := now }
      let (handled, c2) := c1.handleInternal m
      if handled then c2.awaitScript now t rest
      else if typeOf m = t then (.msg m, c2, rest)
      else
        let c3 :=
          match assocGet c2.wait (typeOf m) with
          | some ch => chanSend c2 ch (some m)
          | none => { c2 with inQueue := c2.inQueue ++ [m] }
        c3.awaitScript now t rest

/-- `Client.sendAndWaitResponseTimeout` of client.go over a device
script: send, register the waiter (via `waitFor`), await, deregister. -/
def ClientState.sendAndWaitScript (c : ClientState) (now : Nat) (message : Msg)
    (t : Nat) (script : List Msg) : WaitOutcome × ClientState × List Msg :=
  let c := c.sendMsg message
  let (ch, c1) := allocChan c
  let c2 := c1.waitFor t ch
  match c2.awaitScript now t script with
  | (out, c3, rest) => (out, c3.waitDone t, rest)

/-- The `switch` body of the `listEntities` receive loop of client.go,
applied to the messages already sitting in the generic queue, in order:
a `ListEntitiesDoneResponse` ends the loop (`.inl` carries the collected
messages and the unread remainder of the queue); a recognized
entity-description message is collected; anything else is ignored;
`.inr` means the queue was exhausted without a done message. -/
def drainListQueue (acc : List Msg) : List Msg → (List Msg × List Msg) ⊕ List Msg
  | [] => .inr acc
  | m :: rest =>
    match m with
    | .listEntitiesDoneResponse => .inl (acc, rest)
    | .listEntitiesBinarySensorResponse _ _ | .listEntitiesCameraResponse _
    | .listEntitiesClimateResponse _ | .listEntitiesCoverResponse _
    | .listEntitiesFanResponse _ | .listEntitiesLightResponse _
    | .listEntitiesSensorResponse _ | .listEntitiesServicesResponse _
    | .listEntitiesSwitchResponse _ | .listEntitiesTextSensorResponse _ =>
        drainListQueue (acc ++ [m]) rest
    | _ => drainListQueue acc rest

/-- The `for` loop of `Client.listEntities` of client.go, reading via
`nextMessageTimeout`: messages already in the generic queue are consumed
first, then the device script feeds the reader (each script message
passes through `readMessage`, so the internal responder and the waiter
table see it before it can reach the queue and the loop's switch).
`acc` is the `entities` accumulator of the source; an exhausted script
models no further message arriving within the timeout window. -/
def ClientState.listEntitiesLoop (now : Nat) :
    List Msg → ClientState → List Msg →
    Except Err (List Msg) × ClientState × List Msg
  | script, c, acc =>
    match c.err with
    | some e => (.error e, c, script)
    | none =>
      match drainListQueue acc c.inQueue with
      | .inl (accDone, qrest) => (.ok accDone, { c with inQueue := qrest }, script)
      | .inr acc' =>
        match script with
        | [] => (.error .timeout, { c with inQueue := [] }, [])
        | m :: rest =>
            listEntitiesLoop now rest
              (({ c with inQueue := [] } : ClientState).readMessage now m) acc'

/-- The `switch` of `Client.Login` of client.go inserting one recognized
entity description into the matching kind map, keyed by its numeric key
(the `default` branch only prints and changes nothing). -/
def insertEntity (e : ClientEntities) : Msg → ClientEntities
  | .listEntitiesBinarySensorResponse d dc =>
      { e with binarySensor := assocSet e.binarySensor d.key (newBinarySensor d dc) }
  | .listEntitiesCameraResponse d =>
      { e with camera := assocSet e.camera d.key (newCamera d) }
  | .listEntitiesClimateResponse d =>
      { e with climate := assocSet e.climate d.entity.key (newClimate d) }
  | .listEntitiesCoverResponse d =>
      { e with cover := assocSet e.cover d.key (newCover d) }
  | .listEntitiesFanResponse d =>
      { e with fan := assocSet e.fan d.key (newFan d) }
  | .listEntitiesLightResponse d =>
      { e with light := assocSet e.light d.entity.key (newLight d) }
  | .listEntitiesSensorResponse d =>
      { e with sensor := assocSet e.sensor d.key (newSensor d) }
  | .listEntitiesSwitchResponse d =>
      { e with switches := assocSet e.switches d.key (newSwitch d) }
  | .listEntitiesTextSensorResponse d =>
      { e with textSensor := assocSet e.textSensor d.key (newTextSensor d) }
  | _ => e

/-- `Client.listEntities` of client.go: send the request, then run the
receive loop. -/
def ClientState.listEntities (c : ClientState) (now : Nat) (script : List Msg) :
    Except Err (List Msg) × ClientState × List Msg :=
  ClientState.listEntitiesLoop now script (c.sendMsg .listEntitiesRequest) []

/-- `Client.Login` of client.go over a device script: Hello exchange,
Connect exchange (failing with `ErrPassword` on an invalid password),
entity enumeration, and the fire-and-forget state subscription.
A non-`msg` await outcome is mapped to its error (`ErrTimeout` for a
timeout); the branches below marked unreachable correspond to Go
type-assertion panics that cannot occur because `awaitScript` only
returns a message of the awaited type. -/
def ClientState.login (c : ClientState) (now : Nat) (password : String)
    (script : List Msg) : Option Err × ClientState :=
  match c.sendAndWaitScript now (.helloRequest c.info) helloResponseType script with
  | (.timedOut, c1, _) => (some .timeout, c1)
  | (.msg _, c1, rest1) =>
    match c1.sendAndWaitScript now (.connectRequest password) connectResponseType rest1 with
    | (.timedOut, c2, _) => (some .timeout, c2)
    | (.msg (.connectResponse invalidPassword), c2, rest2) =>
        if invalidPassword then (some .password, c2)
        else
          match c2.listEntities now rest2 with
          | (.error e, c3, _) => (some e, c3)
          | (.ok items, c3, _) =>
              let c4 := { c3 with entities := items.foldl insertEntity c3.entities }
              (none, c4.sendMsg .subscribeStatesRequest)
    | (_, c2, _) => (some .timeout, c2)
  | (_, c1, _) => (some .timeout, c1)

/-! ## Entity snapshot (client.go `Client.Entities`) -/

/-- `Entities` of entity.go: the exported snapshot, keyed by the
persistent `UniqueID`. -/
structure Entities where
  binarySensor : List (String × BinarySensor)
  camera : List (String × Camera)
  climate : List (String × Climate)
  cover : List (String × Cover)
  fan : List (String × Fan)
  light : List (String × Light)
  sensor : List (String × Sensor)
  switches : List (String × Switch)
  textSensor : List (String × TextSensor)
deriving Repr, DecidableEq

/-- One `for … range` loop of `Client.Entities`: re-key a kind map by
the entity's `UniqueID`. -/
def snapshotBy {α : Type} (uid : α → String) (m : List (Nat × α)) :
    List (String × α) :=
  m.foldl (fun acc kv => assocSet acc (uid kv.2) kv.2) []

/-- `Client.Entities` of client.go: the read-only snapshot of all known
entities, partitioned by kind and keyed by `UniqueID`. -/
def ClientState.Entities (c : ClientState) : Entities :=
  { binarySensor := snapshotBy (·.uniqueID) c.entities.binarySensor
    camera := snapshotBy (·.uniqueID) c.entities.camera
    climate := snapshotBy (·.uniqueID) c.entities.climate
    cover := snapshotBy (·.uniqueID) c.entities.cover
    fan := snapshotBy (·.uniqueID) c.entities.fan
    light := snapshotBy (·.uniqueID) c.entities.light
    sensor := snapshotBy (·.uniqueID) c.entities.sensor
    switches := snapshotBy (·.uniqueID) c.entities.switches
    textSensor := snapshotBy (·.uniqueID) c.entities.textSensor }

/-! ## General lemmas about the model -/

theorem assocGet_set_self {α β : Type} [DecidableEq α] (l : List (α × β)) (k : α) (v : β) :
    assocGet (assocSet l k v) k = some v := by
  induction l with
  | nil => simp [assocSet, assocGet]
  | cons kv rest ih =>
      obtain ⟨k', v'⟩ := kv
      by_cases h : k' = k <;> simp [assocSet, assocGet, h, ih]

theorem assocGet_set_ne {α β : Type} [DecidableEq α] (l : List (α × β)) (k k2 : α) (v : β)
    (h : k2 ≠ k) : assocGet (assocSet l k v) k2 = assocGet l k2 := by
  induction l with
  | nil => simp [assocSet, assocGet, Ne.symm h]
  | cons kv rest ih =>
      obtain ⟨k', v'⟩ := kv
      by_cases h' : k' = k
      · subst h'
        simp [assocSet, assocGet, Ne.symm h]
      · simp only [assocSet, if_neg h']
        by_cases h2 : k' = k2
        · subst h2
          simp [assocGet]
        · simp [assocGet, h2, ih]

theorem assocGet_erase_self {α β : Type} [DecidableEq α] (l : List (α × β)) (k : α) :
    assocGet (assocErase l k) k = none := by
  induction l with
  | nil => simp [assocErase, assocGet]
  | cons kv rest ih =>
      obtain ⟨k', v'⟩ := kv
      by_cases h : k' = k <;> simp [assocErase, assocGet, h, ih]

theorem mem_keys_assocSet {α β : Type} [DecidableEq α] (l : List (α × β)) (k : α) (v : β)
    (x : α) : x ∈ (assocSet l k v).map Prod.fst ↔ x ∈ l.map Prod.fst ∨ x = k := by
  induction l with
  | nil => simp [assocSet]
  | cons kv rest ih =>
      obtain ⟨k', v'⟩ := kv
      by_cases h : k' = k
      · subst h
        have hset : assocSet ((k', v') :: rest) k' v = (k', v) :: rest := by
          simp [assocSet]
        rw [hset]
        simp only [List.map_cons, List.mem_cons]
        tauto
      · have hset : assocSet ((k', v') :: rest) k v = (k', v') :: assocSet rest k v := by
          simp [assocSet, h]
        rw [hset]
        simp only [List.map_cons, List.mem_cons, ih]
        tauto

theorem assocSet_keys_nodup {α β : Type} [DecidableEq α] (l : List (α × β)) (k : α) (v : β)
    (h : (l.map Prod.fst).Nodup) : ((assocSet l k v).map Prod.fst).Nodup := by
  induction l with
  | nil => simp [assocSet]
  | cons kv rest ih =>
      obtain ⟨k', v'⟩ := kv
      simp only [List.map_cons, List.nodup_cons] at h
      by_cases he : k' = k
      · subst he
        simpa [assocSet, List.nodup_cons] using h
      · simp only [assocSet, if_neg he, List.map_cons, List.nodup_cons]
        refine ⟨?_, ih h.2⟩
        rw [mem_keys_assocSet]
        rintro (hx | rfl)
        · exact h.1 hx
        · exact he rfl

/-- Length of the generic queue is unchanged by `handleInternal`. -/
theorem handleInternal_inQueue (c : ClientState) (m : Msg) :
    ((c.handleInternal m).2).inQueue = c.inQueue := by
  cases m <;> simp only [ClientState.handleInternal, ClientState.sendMsg] <;>
    first
      | rfl
      | (split <;> rfl)

/-- `readMessage` grows the generic queue by at most one message. -/
theorem readMessage_inQueue_length (c : ClientState) (now : Nat) (m : Msg) :
    ((c.readMessage now m).inQueue).length ≤ c.inQueue.length + 1 := by
  have h : (({ c with lastMessage := now } : ClientState).handleInternal m).2.inQueue
      = c.inQueue := handleInternal_inQueue _ m
  unfold ClientState.readMessage
  simp only
  split
  · rw [h]; omega
  · split
    · simp only [chanSend]
      split <;> simp [h]
    · simp [h]

/-- `handleInternal` never touches the waiter table. -/
theorem handleInternal_wait (c : ClientState) (m : Msg) :
    ((c.handleInternal m).2).wait = c.wait := by
  cases m <;> simp only [ClientState.handleInternal, ClientState.sendMsg] <;>
    first
      | rfl
      | (split <;> rfl)

/-- `handleInternal` never touches the waiter channels. -/
theorem handleInternal_chans (c : ClientState) (m : Msg) :
    ((c.handleInternal m).2).chans = c.chans := by
  cases m <;> simp only [ClientState.handleInternal, ClientState.sendMsg] <;>
    first
      | rfl
      | (split <;> rfl)

/-- Whether `handleInternal` fully handles a message (short-circuiting
correlation) depends only on the message: exactly the disconnect, ping
and time requests are consumed. -/
theorem handleInternal_fst (c : ClientState) (m : Msg) :
    (c.handleInternal m).1 = internalKind m := by
  cases m <;> simp only [ClientState.handleInternal, internalKind] <;>
    first
      | rfl
      | (split <;> rfl)

/-- No push-state message kind is internally consumed. -/
theorem internalKind_of_push (m : Msg) (h : isPushState m = true) :
    internalKind m = false := by
  cases m <;> simp_all [isPushState, internalKind]

/-- Sending into a waiter channel does not touch the waiter table. -/
theorem chanSend_wait (c : ClientState) (ch : Nat) (v : Option Msg) :
    (chanSend c ch v).wait = c.wait := by
  unfold chanSend
  split <;> rfl

/-- Closing a waiter channel does not touch the waiter table. -/
theorem chanClose_wait (c : ClientState) (ch : Nat) :
    (chanClose c ch).wait = c.wait := by
  unfold chanClose
  split <;> rfl

/-! ## The claims -/

/-- C8: for a sensor with a registered state callback and no prior
updates, applying `SensorStateResponse{value: 21.5, missing: false}` and
then `SensorStateResponse{value: 21.5000001, missing: false}` invokes the
callback exactly once — with `21.5`, the second update being within the
`1e-6` epsilon and suppressed — and the stored state afterwards equals
`21.5000001`. -/
theorem c8_change_suppression :
    let s : Sensor := { newSensor ⟨1, "object", "unique", "sensor"⟩ with hasHandleState := true }
    let r1 := s.update ⟨1, 21.5, false⟩
    let r2 := r1.1.update ⟨1, 21.5000001, false⟩
    r1.2 ++ r2.2 = [(21.5 : ℚ)] ∧ r2.1.state = 21.5000001 := by
  have h1 : equal 0 21.5 = false := by unfold equal; norm_num [abs_le]
  have h2 : equal 21.5 21.5000001 = true := by unfold equal; norm_num [abs_le]
  simp [Sensor.update, newSensor, h1, h2]

/-- C10: a sensor push update with `MissingState` set invokes no
callback, leaves `StateIsValid` false afterwards (whatever it was
before), and still overwrites the stored state with the update's value. -/
theorem c10_missing_state (s : Sensor) (key : Nat) (v : ℚ) :
    (s.update ⟨key, v, true⟩).2 = [] ∧
    (s.update ⟨key, v, true⟩).1.stateIsValid = false ∧
    (s.update ⟨key, v, true⟩).1.state = v := by
  refine ⟨?_, rfl, rfl⟩
  simp [Sensor.update]

/-- C6: when the Hello exchange succeeds and the ConnectResponse reports
an invalid password, `Login` returns the authentication error
`ErrPassword`, sends nothing beyond the Hello and Connect requests (so
neither the entity enumeration request nor the state subscription is
issued), and every entity map is still empty. -/
theorem c6_login_bad_password (info pw : String) (timeout clockEpoch now : Nat)
    (rest : List Msg) :
    ((newClient info timeout clockEpoch).login now pw
        (Msg.helloResponse :: Msg.connectResponse true :: rest)).1 = some Err.password ∧
    ((newClient info timeout clockEpoch).login now pw
        (Msg.helloResponse :: Msg.connectResponse true :: rest)).2.sent =
      [Msg.helloRequest info, Msg.connectRequest pw] ∧
    ((newClient info timeout clockEpoch).login now pw
        (Msg.helloResponse :: Msg.connectResponse true :: rest)).2.entities =
      newClientEntities := by
  exact ⟨rfl, rfl, rfl⟩

/-- C9: every per-entity command setter builds its message from the
entity's cached state and capability flags — the supported-field
indicators equal the corresponding capability flags (those without a
capability are false) — overrides exactly the one field being changed,
and sending it only appends to the outbound trace: no waiter is
registered and no reply is awaited. -/
theorem c9_command_builders (l : Light) (sw : Switch) (c : ClientState)
    (v w : ℚ) (eff : String) (b bs : Bool) :
    l.setBrightnessMsg v =
      { key := l.key, state := l.state.isOn
        hasBrightness := l.capabilities.brightness, brightness := v
        hasRgb := l.capabilities.rgb, red := l.state.red, green := l.state.green
        blue := l.state.blue
        hasWhite := l.capabilities.whiteValue, white := l.state.white
        hasColorTemperature := l.capabilities.colorTemperature
        colorTemperature := l.state.colorTemperature
        hasTransitionLength := false, transitionLength := 0
        hasFlashLength := false, flashLength := 0
        hasEffect := false, effect := l.state.effect } ∧
    l.setWhiteMsg w = { l.commandRequest with white := w } ∧
    l.setEffectMsg eff = { l.commandRequest with effect := eff } ∧
    l.setStateMsg b = { l.commandRequest with state := b } ∧
    sw.setStateMsg bs = { key := sw.key, state := bs } ∧
    (∀ m : Msg,
      (c.sendMsg m).sent = c.sent ++ [m] ∧ (c.sendMsg m).wait = c.wait ∧
      (c.sendMsg m).inQueue = c.inQueue ∧ (c.sendMsg m).chans = c.chans ∧
      (c.sendMsg m).events = c.events ∧ (c.sendMsg m).entities = c.entities ∧
      (c.sendMsg m).err = c.err) := by
  exact ⟨rfl, rfl, rfl, rfl, rfl, fun m => ⟨rfl, rfl, rfl, rfl, rfl, rfl, rfl⟩⟩

/-- C1 counterexample: on a connection whose sticky terminal error is set
(here an I/O failure) and whose receive loop has therefore exited (so
nothing is ever delivered to a waiter channel), the per-kind waiter
awaits do NOT return the stored error: `waitMessage` blocks forever and
`waitMessageTimeout` returns `ErrTimeout` — refuting the claim that
every subsequent wait operation returns the stored error immediately. -/
theorem c1_counterexample :
    let cErr : ClientState := { newClient "client" 10 0 with err := some (Err.io 0) }
    (cErr.nextMessage).1 = .errored (Err.io 0) ∧
    (cErr.waitMessage connectResponseType []).1 = .blocked ∧
    (cErr.waitMessageTimeout connectResponseType []).1 = .timedOut ∧
    (cErr.waitMessage connectResponseType []).1 ≠ .errored (Err.io 0) ∧
    (cErr.waitMessageTimeout connectResponseType []).1 ≠ .errored (Err.io 0) := by
  exact ⟨rfl, rfl, rfl, by decide, by decide⟩

/-- C1 (amended): once the sticky terminal error is recorded, the two
generic next-message receives return the stored error immediately, but
the per-kind waiter awaits never consult it: with nothing delivered to
the waiter channel (the receive loop has exited), `waitMessage` blocks
and `waitMessageTimeout` fails with `ErrTimeout` instead of the stored
error. -/
theorem c1_sticky_error_amended (c : ClientState) (e : Err) (t : Nat)
    (h : c.err = some e) :
    (c.nextMessage).1 = .errored e ∧
    (c.nextMessageTimeout).1 = .errored e ∧
    (c.waitMessage t []).1 = .blocked ∧
    (c.waitMessageTimeout t []).1 = .timedOut := by
  refine ⟨?_, ?_, rfl, rfl⟩ <;>
    simp [ClientState.nextMessage, ClientState.nextMessageTimeout, h]

/-- Witness for `c1_sticky_error_amended` at a concrete dead connection. -/
theorem c1_sticky_error_amended_witness :
    (({ newClient "client" 10 0 with err := some (Err.protocol 7) } : ClientState).nextMessage).1
        = .errored (Err.protocol 7) ∧
    (({ newClient "client" 10 0 with err := some (Err.protocol 7) } : ClientState).nextMessageTimeout).1
        = .errored (Err.protocol 7) ∧
    (({ newClient "client" 10 0 with err := some (Err.protocol 7) } : ClientState).waitMessage
        helloResponseType []).1 = .blocked ∧
    (({ newClient "client" 10 0 with err := some (Err.protocol 7) } : ClientState).waitMessageTimeout
        helloResponseType []).1 = .timedOut :=
  c1_sticky_error_amended
    { newClient "client" 10 0 with err := some (Err.protocol 7) } (Err.protocol 7)
    helloResponseType rfl

/-- C4 counterexample: a light with a valid prior state (`On = true`)
and a registered on/off callback receives a push turning it off
(`State = false`): the dispatcher invokes the callback, but with the
constant argument `true` — never with the new field value `false` —
refuting the claim that each change callback is invoked with the new
field value. -/
theorem c4_counterexample :
    let l : Light := { newLight ⟨⟨1, "o", "u", "n"⟩, false, false, false, false, 0, 0, []⟩ with
      stateIsValid := true
      state := { isOn := true, brightness := 0, red := 0, green := 0, blue := 0
                 white := 0, colorTemperature := 0, effect := "" }
      hasHandleState := true }
    let m : LightStateMsg := ⟨1, false, 0, 0, 0, 0, 0, 0, ""⟩
    (l.update m).2 = [LightEvent.handleState true] ∧
    m.state = false ∧
    LightEvent.handleState false ∉ (l.update m).2 := by
  exact ⟨rfl, rfl, by decide⟩

/-- C4 (amended): the three dispatchers commit the pushed values and
invoke callbacks as follows. Light: the on/off callback fires when the
pushed value differs from the cached one (no first-update override),
always with the constant argument `true`; the color, color-temperature
and effect callbacks fire exactly once when their fields change (epsilon
`1e-6` for the floating fields, exact equality for the effect string) or
unconditionally on the first valid update, with the new values; the
brightness callback is never invoked; afterwards the state is committed
and `StateIsValid` set. Sensor: the callback fires (with the new value)
when the update is not missing and the value differs by more than
epsilon from the cached value — with no first-update override — then
the state is committed and `StateIsValid` is set to "not missing".
Switch: the callback fires unconditionally on every update with the new
value; the state is committed and `AssumedState` cleared (there is no
`StateIsValid`). -/
theorem c4_dispatch_amended (l : Light) (ml : LightStateMsg) (s : Sensor)
    (ms : SensorStateMsg) (sw : Switch) (msw : SwitchStateMsg) :
    ((l.update ml).1.state =
      { isOn := ml.state, brightness := ml.brightness, red := ml.red, green := ml.green
        blue := ml.blue, white := ml.white, colorTemperature := ml.colorTemperature
        effect := ml.effect } ∧
     (l.update ml).1.stateIsValid = true ∧
     (l.update ml).2 =
      (if l.hasHandleState = true ∧ ml.state ≠ l.state.isOn
       then [LightEvent.handleState true] else []) ++
      (if l.hasHandleColor = true ∧ (l.stateIsValid = false ∨
            equal l.state.red ml.red = false ∨ equal l.state.green ml.green = false ∨
            equal l.state.blue ml.blue = false ∨ equal l.state.white ml.white = false)
       then [LightEvent.handleColor ml.red ml.green ml.blue ml.white] else []) ++
      (if l.hasHandleColorTemperature = true ∧ (l.stateIsValid = false ∨
            equal l.state.colorTemperature ml.colorTemperature = false)
       then [LightEvent.handleColorTemperature ml.colorTemperature] else []) ++
      (if l.hasHandleEffect = true ∧ (l.stateIsValid = false ∨ l.state.effect ≠ ml.effect)
       then [LightEvent.handleEffect ml.effect] else []) ∧
     (∀ q : ℚ, LightEvent.handleBrightness q ∉ (l.update ml).2)) ∧
    ((s.update ms).1.state = ms.state ∧
     (s.update ms).1.stateIsValid = !ms.missingState ∧
     (s.update ms).2 =
      (if ms.missingState = false ∧ s.hasHandleState = true ∧ equal s.state ms.state = false
       then [ms.state] else [])) ∧
    ((sw.update msw).1.state = msw.state ∧
     (sw.update msw).1.assumedState = false ∧
     (sw.update msw).2 = (if sw.hasHandleState = true then [msw.state] else [])) := by
  refine ⟨⟨rfl, rfl, ?_, ?_⟩, ⟨rfl, rfl, ?_⟩, ⟨rfl, rfl, ?_⟩⟩
  · simp only [Light.update, Bool.and_eq_true, bne_iff_ne, Bool.or_eq_true,
      Bool.not_eq_true', and_assoc, or_assoc]
  · intro q
    simp only [Light.update, List.mem_append, List.mem_singleton]
    split_ifs <;> simp
  · simp only [Sensor.update, Bool.and_eq_true, Bool.not_eq_true', and_assoc]
  · simp only [Switch.update]

/-- C7 counterexample: three sensor-description messages with distinct
`UniqueID` values but a duplicated numeric key, followed by
ListEntitiesDone: login succeeds, yet the exported sensor snapshot has
only two entries, because the intermediate registry is keyed by the
numeric key and the duplicate overwrites — refuting the claim that
distinct `UniqueID` values alone guarantee three entries. -/
theorem c7_counterexample :
    let script : List Msg :=
      [.helloResponse, .connectResponse false,
       .listEntitiesSensorResponse ⟨1, "o1", "u1", "n1"⟩,
       .listEntitiesSensorResponse ⟨1, "o2", "u2", "n2"⟩,
       .listEntitiesSensorResponse ⟨2, "o3", "u3", "n3"⟩,
       .listEntitiesDoneResponse]
    ((newClient "client" 10 0).login 5 "pw" script).1 = none ∧
    (((newClient "client" 10 0).login 5 "pw" script).2.Entities).sensor.length = 2 := by
  exact ⟨by decide, by decide⟩

set_option maxHeartbeats 2000000 in
/-- C7 (amended): when the enumeration delivers exactly three
sensor-description messages with distinct numeric keys AND distinct
`UniqueID` values, followed by ListEntitiesDone, login succeeds and the
exported sensor snapshot has exactly three entries, keyed by the
sensors' `UniqueID` values. -/
theorem c7_enumeration_amended (info pw : String) (timeout clockEpoch now : Nat)
    (e1 e2 e3 : EntityDesc)
    (hk12 : e1.key ≠ e2.key) (hk13 : e1.key ≠ e3.key) (hk23 : e2.key ≠ e3.key)
    (hu12 : e1.uniqueId ≠ e2.uniqueId) (hu13 : e1.uniqueId ≠ e3.uniqueId)
    (hu23 : e2.uniqueId ≠ e3.uniqueId) :
    let r := (newClient info timeout clockEpoch).login now pw
      [.helloResponse, .connectResponse false,
       .listEntitiesSensorResponse e1, .listEntitiesSensorResponse e2,
       .listEntitiesSensorResponse e3, .listEntitiesDoneResponse]
    r.1 = none ∧
    (r.2.Entities).sensor.length = 3 ∧
    assocGet (r.2.Entities).sensor e1.uniqueId = some (newSensor e1) ∧
    assocGet (r.2.Entities).sensor e2.uniqueId = some (newSensor e2) ∧
    assocGet (r.2.Entities).sensor e3.uniqueId = some (newSensor e3) := by
  simp only []
  simp [ClientState.login, ClientState.sendAndWaitScript, ClientState.awaitScript,
    ClientState.handleInternal, allocChan, ClientState.waitFor, ClientState.waitDone,
    ClientState.sendMsg, newClient, typeOf, helloResponseType, connectResponseType,
    ClientState.listEntities, ClientState.listEntitiesLoop, drainListQueue,
    ClientState.readMessage, assocGet, assocSet, assocErase, insertEntity,
    ClientState.Entities, snapshotBy, newSensor, newClientEntities, chanSend,
    hk12, hk13, hk23, hu12, hu13, hu23, Ne.symm hk12, Ne.symm hk13, Ne.symm hk23,
    Ne.symm hu12, Ne.symm hu13, Ne.symm hu23]

/-- Witness for `c7_enumeration_amended` at three concrete sensor
descriptions with distinct keys and distinct unique identifiers. -/
theorem c7_enumeration_amended_witness :
    let r := (newClient "client" 10 0).login 5 "pw"
      [.helloResponse, .connectResponse false,
       .listEntitiesSensorResponse ⟨1, "o1", "u1", "n1"⟩,
       .listEntitiesSensorResponse ⟨2, "o2", "u2", "n2"⟩,
       .listEntitiesSensorResponse ⟨3, "o3", "u3", "n3"⟩,
       .listEntitiesDoneResponse]
    r.1 = none ∧
    (r.2.Entities).sensor.length = 3 ∧
    assocGet (r.2.Entities).sensor "u1" = some (newSensor ⟨1, "o1", "u1", "n1"⟩) ∧
    assocGet (r.2.Entities).sensor "u2" = some (newSensor ⟨2, "o2", "u2", "n2"⟩) ∧
    assocGet (r.2.Entities).sensor "u3" = some (newSensor ⟨3, "o3", "u3", "n3"⟩) :=
  c7_enumeration_amended "client" "pw" 10 0 5
    ⟨1, "o1", "u1", "n1"⟩ ⟨2, "o2", "u2", "n2"⟩ ⟨3, "o3", "u3", "n3"⟩
    (by decide) (by decide) (by decide) (by decide) (by decide) (by decide)

/-- C5: an await-with-timeout during which no message of the awaited
kind arrives (empty delivery list) returns `ErrTimeout` and removes the
waiter before returning; a subsequent fresh wait for that kind then
registers cleanly — `waitFor` performs no displacement (the channels are
untouched) and installs the new channel — and a later message of that
kind is delivered into the fresh channel by the receive path. (The
"after at least the given duration" part is real time — Go's
`time.After` — and is outside this model; the empty delivery list is
exactly the "nothing arrived within the window" case.) -/
theorem c5_timeout_hygiene (c : ClientState) (t now : Nat) (m : Msg)
    (hm : typeOf m = t) (hk : internalKind m = false) :
    let r := c.waitMessageTimeout t []
    let ch := (allocChan r.2).1
    let c2 := (allocChan r.2).2
    let c3 := c2.waitFor t ch
    r.1 = .timedOut ∧
    assocGet r.2.wait t = none ∧
    c3.chans = c2.chans ∧
    assocGet c3.wait t = some ch ∧
    assocGet (c3.readMessage now m).chans ch =
      some { buf := [some m], closed := false } := by
  intro r ch c2 c3
  have h2 : assocGet r.2.wait t = none := assocGet_erase_self _ t
  have hnone : assocGet c2.wait t = none := h2
  have h3 : c3 = { c2 with wait := assocSet c2.wait t ch } := by
    show c2.waitFor t ch = _
    simp only [ClientState.waitFor, hnone]
  have h4 : assocGet c3.wait t = some ch := by
    rw [h3]
    exact assocGet_set_self _ _ _
  have hch2 : assocGet c2.chans ch = some { buf := [], closed := false } :=
    assocGet_set_self _ _ _
  have hch3 : assocGet c3.chans ch = some { buf := [], closed := false } := by
    rw [h3]
    exact hch2
  refine ⟨rfl, h2, by rw [h3], h4, ?_⟩
  have hfst' := handleInternal_fst ({ c3 with lastMessage := now } : ClientState) m
  rw [hk] at hfst'
  have hwait3 : (({ c3 with lastMessage := now } : ClientState).handleInternal m).2.wait
      = c3.wait := handleInternal_wait _ m
  have hchans3 : (({ c3 with lastMessage := now } : ClientState).handleInternal m).2.chans
      = c3.chans := handleInternal_chans _ m
  unfold ClientState.readMessage
  simp only [hfst', Bool.false_eq_true, if_false, hwait3, hm, h4]
  simp only [chanSend, hchans3, hch3, List.nil_append]
  exact assocGet_set_self _ _ _

/-- Witness for `c5_timeout_hygiene` at a concrete client, kind and
message. -/
theorem c5_timeout_hygiene_witness :
    let c : ClientState := newClient "client" 10 0
    let t : Nat := typeOf Msg.helloResponse
    let r := c.waitMessageTimeout t []
    let ch := (allocChan r.2).1
    let c2 := (allocChan r.2).2
    let c3 := c2.waitFor t ch
    r.1 = .timedOut ∧
    assocGet r.2.wait t = none ∧
    c3.chans = c2.chans ∧
    assocGet c3.wait t = some ch ∧
    assocGet (c3.readMessage 3 Msg.helloResponse).chans ch =
      some { buf := [some Msg.helloResponse], closed := false } :=
  c5_timeout_hygiene (newClient "client" 10 0) (typeOf Msg.helloResponse) 3
    Msg.helloResponse rfl rfl

/-- C2 counterexample: a received sensor push-state update addressed to a
registered sensor entity is dispatched to the entity (its state is
committed) but `handleInternal` returns `false` for it, so the very same
message is then appended to the generic inbound queue — refuting the
claim that a push-state update is never delivered to a waiter or to the
generic queue. -/
theorem c2_counterexample :
    let s : Sensor := { newSensor ⟨1, "o", "u", "n"⟩ with hasHandleState := true }
    let c : ClientState := { newClient "client" 10 0 with
      entities := { newClientEntities with sensor := [(1, s)] } }
    let m : Msg := .sensorStateResponse ⟨1, 5, false⟩
    (c.handleInternal m).1 = false ∧
    (c.readMessage 7 m).inQueue = [m] ∧
    (assocGet (c.readMessage 7 m).entities.sensor 1).map (fun e => e.state) = some 5 ∧
    (assocGet (c.readMessage 7 m).entities.sensor 1).map (fun e => e.stateIsValid)
      = some true := by
  exact ⟨rfl, rfl, rfl, rfl⟩

/-- C2 (amended): every received entity push-state update is dispatched
to the matching registered entity by `handleInternal`, but the handler
does not consume it (`handleInternal` returns false for every push-state
kind): afterwards the message is still delivered — into the channel of a
registered waiter for its kind if there is one, otherwise appended to
the generic inbound queue. -/
theorem c2_push_delivery_amended (c : ClientState) (now : Nat) (m : Msg)
    (h : isPushState m = true) :
    (c.handleInternal m).1 = false ∧
    (assocGet c.wait (typeOf m) = none →
      (c.readMessage now m).inQueue = c.inQueue ++ [m]) ∧
    (∀ ch st, assocGet c.wait (typeOf m) = some ch →
      assocGet c.chans ch = some st →
      assocGet (c.readMessage now m).chans ch =
        some { st with buf := st.buf ++ [some m] }) := by
  have hfst := handleInternal_fst c m
  rw [internalKind_of_push m h] at hfst
  have hfst' := handleInternal_fst ({ c with lastMessage := now } : ClientState) m
  rw [internalKind_of_push m h] at hfst'
  have hwait : (({ c with lastMessage := now } : ClientState).handleInternal m).2.wait
      = c.wait := handleInternal_wait _ m
  have hchans : (({ c with lastMessage := now } : ClientState).handleInternal m).2.chans
      = c.chans := handleInternal_chans _ m
  have hqueue : (({ c with lastMessage := now } : ClientState).handleInternal m).2.inQueue
      = c.inQueue := handleInternal_inQueue _ m
  refine ⟨hfst, ?_, ?_⟩
  · intro hnone
    unfold ClientState.readMessage
    simp only [hfst', Bool.false_eq_true, if_false, hwait, hnone, hqueue]
  · intro ch st hsome hst
    unfold ClientState.readMessage
    simp only [hfst', Bool.false_eq_true, if_false, hwait, hsome]
    simp only [chanSend, hchans, hst]
    exact assocGet_set_self _ _ _

/-- Witness for `c2_push_delivery_amended` at a concrete client and a
concrete sensor push-state message. -/
theorem c2_push_delivery_amended_witness :
    ((newClient "client" 10 0).handleInternal
        (.sensorStateResponse ⟨1, 5, false⟩)).1 = false ∧
    (assocGet (newClient "client" 10 0).wait
        (typeOf (.sensorStateResponse ⟨1, 5, false⟩)) = none →
      ((newClient "client" 10 0).readMessage 7
          (.sensorStateResponse ⟨1, 5, false⟩)).inQueue =
        (newClient "client" 10 0).inQueue ++ [.sensorStateResponse ⟨1, 5, false⟩]) ∧
    (∀ ch st, assocGet (newClient "client" 10 0).wait
        (typeOf (.sensorStateResponse ⟨1, 5, false⟩)) = some ch →
      assocGet (newClient "client" 10 0).chans ch = some st →
      assocGet (((newClient "client" 10 0)).readMessage 7
          (.sensorStateResponse ⟨1, 5, false⟩)).chans ch =
        some { st with buf := st.buf ++ [some (.sensorStateResponse ⟨1, 5, false⟩)] }) :=
  c2_push_delivery_amended (newClient "client" 10 0) 7
    (.sensorStateResponse ⟨1, 5, false⟩) rfl

/-- C3 counterexample: with a waiter (channel 0) already registered for
the log-entry kind, the `Client.Logs` registration path installs its new
channel (1) by direct map assignment: the prior waiter's channel
receives no cancellation signal (its buffer stays empty) and is not
closed — refuting the claim that displacement holds on every
registration path, including the log-subscription waiter. -/
theorem c3_counterexample :
    let cW : ClientState := { newClient "client" 10 0 with
      wait := [(subscribeLogsResponseType, 0)]
      chans := [(0, { buf := [], closed := false })], nextChan := 1 }
    (cW.logsRegister 1).wait = [(subscribeLogsResponseType, 1)] ∧
    assocGet (cW.logsRegister 1).chans 0 = some { buf := [], closed := false } := by
  exact ⟨rfl, rfl⟩

/-- C3 (amended): registration through `waitFor` (the path used by the
generic awaits) does displace a prior waiter — its channel receives the
`nil` cancellation and is closed, and the slot then maps to the new
channel; the waiter table keeps at most one entry per kind. But the
log-subscription and camera-image registrations install their channel by
direct map assignment, leaving the displaced channel without any
cancellation signal. -/
theorem c3_waiter_displacement_amended (c : ClientState) (k ch other : Nat)
    (st : ChanSt) (hw : assocGet c.wait k = some other)
    (hc : assocGet c.chans other = some st) :
    assocGet (c.waitFor k ch).chans other =
      some { buf := st.buf ++ [none], closed := true } ∧
    assocGet (c.waitFor k ch).wait k = some ch ∧
    ((c.wait.map Prod.fst).Nodup → (((c.waitFor k ch).wait.map Prod.fst).Nodup)) ∧
    (c.logsRegister ch).chans = c.chans ∧
    (c.cameraRegister ch).chans = c.chans ∧
    assocGet (c.logsRegister ch).wait subscribeLogsResponseType = some ch ∧
    assocGet (c.cameraRegister ch).wait cameraImageResponseType = some ch := by
  have hsendgot : assocGet (chanSend c other none).chans other
      = some { buf := st.buf ++ [none], closed := st.closed } := by
    simp only [chanSend, hc]
    exact assocGet_set_self _ _ _
  have h1 : (c.waitFor k ch).chans
      = assocSet (chanSend c other none).chans other
          { buf := st.buf ++ [none], closed := true } := by
    simp only [ClientState.waitFor, hw, chanClose, hsendgot]
  have h2 : (c.waitFor k ch).wait = assocSet c.wait k ch := by
    simp only [ClientState.waitFor, hw, chanClose, hsendgot]
    rw [chanSend_wait]
  refine ⟨?_, ?_, ?_, rfl, rfl, ?_, ?_⟩
  · rw [h1]
    exact assocGet_set_self _ _ _
  · rw [h2]
    exact assocGet_set_self _ _ _
  · intro hnd
    rw [h2]
    exact assocSet_keys_nodup _ _ _ hnd
  · exact assocGet_set_self _ _ _
  · exact assocGet_set_self _ _ _

/-- Witness for `c3_waiter_displacement_amended` at a concrete state
with an outstanding waiter. -/
theorem c3_waiter_displacement_amended_witness :
    let cW : ClientState := { newClient "client" 10 0 with
      wait := [(9, 0)], chans := [(0, { buf := [], closed := false })], nextChan := 1 }
    assocGet (cW.waitFor 9 1).chans 0 =
      some { buf := [none], closed := true } ∧
    assocGet (cW.waitFor 9 1).wait 9 = some 1 ∧
    ((cW.wait.map Prod.fst).Nodup → (((cW.waitFor 9 1).wait.map Prod.fst).Nodup)) ∧
    (cW.logsRegister 1).chans = cW.chans ∧
    (cW.cameraRegister 1).chans = cW.chans ∧
    assocGet (cW.logsRegister 1).wait subscribeLogsResponseType = some 1 ∧
    assocGet (cW.cameraRegister 1).wait cameraImageResponseType = some 1 :=
  c3_waiter_displacement_amended
    { newClient "client" 10 0 with
      wait := [(9, 0)], chans := [(0, { buf := [], closed := false })], nextChan := 1 }
    9 1 0 { buf := [], closed := false } rfl rfl

end ESPHome
